import Mathlib

/-!
Shallow embedding of the Hovden Musikklubb web client (source files: the
public `MusikkfestPage` with its `EventImage` aspect classifier, and the
admin `EventManager` / `ContactMessages` / `MembershipForm` components),
with theorems settling the frozen claims about it.

Conventions of the embedding:
* JavaScript numbers arising from integer DOM dimensions are modelled by
  `JSNumber` (NaN / +Infinity / a finite rational), with division by zero
  following IEEE-754 as JavaScript does.
* The remote database tables are explicit lists of rows; a backend call is a
  pure function threading the table, the component-local state and a Boolean
  saying whether the request succeeded, and returning the new state together
  with the list of requests it issued.
* The backend's `order(column, ascending)` clause is modelled by sorting the
  selected rows with `List.insertionSort` on the column.
* The browser's `confirm` dialog is a Boolean input; form fields carrying the
  `required` attribute gate submission on being non-empty.
-/

namespace Hovden

/-! ### EventImage aspect classifier (`handleImageLoad`) -/

/-- The three CSS aspect buckets of `EventImage`:
`aspect-[16/9]`, `aspect-[3/4]`, `aspect-[4/3]`. -/
inductive AspectClass where
  | wide      -- selected class `aspect-[16/9]`
  | tall      -- selected class `aspect-[3/4]`
  | standard  -- selected class `aspect-[4/3]`, the default
deriving DecidableEq, Repr

/-- A JavaScript number as produced by dividing two natural DOM dimensions:
either NaN, +Infinity, or a finite (exact) rational. -/
inductive JSNumber where
  | nan
  | posInf
  | finite (q : ℚ)
deriving DecidableEq, Repr

/-- JavaScript division `w / h` of two naturals: `0 / 0` is NaN,
`w / 0` with `w > 0` is +Infinity, otherwise the finite quotient. -/
def jsDiv (w h : ℕ) : JSNumber :=
  if h = 0 then (if w = 0 then .nan else .posInf)
  else .finite ((w : ℚ) / (h : ℚ))

/-- JavaScript `x > c` for `x` a computed ratio and `c` a finite literal:
false on NaN, true on +Infinity. -/
def jsGt (x : JSNumber) (c : ℚ) : Bool :=
  match x with
  | .nan => false
  | .posInf => true
  | .finite q => decide (c < q)

/-- JavaScript `x < c` for `x` a computed ratio and `c` a finite literal:
false on NaN and on +Infinity. -/
def jsLt (x : JSNumber) (c : ℚ) : Bool :=
  match x with
  | .nan => false
  | .posInf => false
  | .finite q => decide (q < c)

/-- `handleImageLoad` of `EventImage`: computes
`ratio = naturalWidth / naturalHeight` and selects
`aspect-[16/9]` when `ratio > 1.7`, `aspect-[3/4]` when `ratio < 0.8`,
and `aspect-[4/3]` otherwise. -/
def handleImageLoad (naturalWidth naturalHeight : ℕ) : AspectClass :=
  let ratio := jsDiv naturalWidth naturalHeight
  if jsGt ratio (17/10) then .wide
  else if jsLt ratio (8/10) then .tall
  else .standard

/-! ### Data model: `events` and `contact_messages` rows -/

/-- `events.status`, constrained to the three enumerated values. -/
inductive EventStatus where
  | draft
  | published
  | cancelled
deriving DecidableEq, Repr

/-- A row of the `events` table (`Database['public']['Tables']['events']['Row']`). -/
structure Event where
  id : String
  title : String
  description : Option String
  event_date : String
  location : Option String
  status : EventStatus
  image_url : Option String
  ticket_price : Option Int
  tickets_url : Option String
  festival : Option String
deriving DecidableEq, Repr

/-- `contact_messages.status`, constrained to the three enumerated values. -/
inductive MessageStatus where
  | new
  | in_progress
  | completed
deriving DecidableEq, Repr

/-- A row of the `contact_messages` table (the `ContactMessage` interface). -/
structure ContactMessage where
  id : String
  name : String
  email : String
  message : String
  created_at : String
  admin_notes : Option String
  status : MessageStatus
deriving DecidableEq, Repr

/-- A toast notification shown by `react-hot-toast`. -/
inductive Toast where
  | success (msg : String)
  | error (msg : String)
deriving DecidableEq, Repr

/-- A request issued to the backend, with the payload the source sends. -/
inductive Req where
  | selectEvents
  | insertEvent (form_title : String)
  | updateEvent (id : String) (form_title : String)
  | updateEventStatus (id : String) (status : EventStatus)
  | deleteEvent (id : String)
  | selectMessages
  | updateMessageStatus (id : String) (status : MessageStatus)
  | updateMessageNotes (id : String) (notes : String)
  | deleteMessage (id : String)
deriving DecidableEq, Repr

/-! ### Backend ordering (`order('event_date', ascending: true)` etc.) -/

/-- Ascending order on `events.event_date`. -/
def eventDateLE : Event → Event → Prop := fun a b => a.event_date ≤ b.event_date

instance : DecidableRel eventDateLE := fun a b =>
  inferInstanceAs (Decidable (a.event_date ≤ b.event_date))

instance : IsTotal Event eventDateLE := ⟨fun a b => le_total a.event_date b.event_date⟩

instance : IsTrans Event eventDateLE := ⟨fun _ _ _ h1 h2 => le_trans h1 h2⟩

/-- The backend's `order('event_date', { ascending: true })`. -/
def orderByEventDateAsc (rows : List Event) : List Event :=
  List.insertionSort eventDateLE rows

/-- Descending order on `contact_messages.created_at`. -/
def createdAtGE : ContactMessage → ContactMessage → Prop :=
  fun a b => b.created_at ≤ a.created_at

instance : DecidableRel createdAtGE := fun a b =>
  inferInstanceAs (Decidable (b.created_at ≤ a.created_at))

instance : IsTotal ContactMessage createdAtGE := ⟨fun a b =>
  (le_total b.created_at a.created_at).imp id id⟩

instance : IsTrans ContactMessage createdAtGE := ⟨fun _ _ _ h1 h2 => le_trans h2 h1⟩

/-- The backend's `order('created_at', { ascending: false })`. -/
def orderByCreatedAtDesc (rows : List ContactMessage) : List ContactMessage :=
  List.insertionSort createdAtGE rows

/-! ### MusikkfestPage (public event list) -/

/-- `fetchMusikkfestEvents`: `select('*').eq('festival', 'musikkfest')
.order('event_date', { ascending: true })` over the `events` table. -/
def fetchMusikkfestEvents (table : List Event) : List Event :=
  orderByEventDateAsc (table.filter (fun e => e.festival == some "musikkfest"))

/-- The rendered grid: `events.filter(event => event.title !== 'Grendedag')`. -/
def displayedEvents (events : List Event) : List Event :=
  events.filter (fun e => e.title != "Grendedag")

/-! ### EventManager (admin event CRUD) -/

/-- The admin form state (`formData : Partial<Event>`), with the fields the
form initialises and edits. -/
structure EventForm where
  title : String
  description : String
  event_date : String
  location : String
  status : EventStatus
  image_url : String
  ticket_price : Option Int
  tickets_url : String
  festival : String
deriving DecidableEq, Repr

/-- The initial/reset `formData` value of `EventManager`. -/
def initialEventForm : EventForm :=
  { title := "", description := "", event_date := "", location := "",
    status := .draft, image_url := "", ticket_price := none,
    tickets_url := "", festival := "" }

/-- The column assignment performed by `update(formData)` on a matching row. -/
def applyEventForm (f : EventForm) (e : Event) : Event :=
  { e with title := f.title, description := some f.description,
           event_date := f.event_date, location := some f.location,
           status := f.status, image_url := some f.image_url,
           ticket_price := f.ticket_price, tickets_url := some f.tickets_url,
           festival := some f.festival }

/-- The row created by `insert([formData])`, with the backend-generated id. -/
def eventFromForm (id : String) (f : EventForm) : Event :=
  { id := id, title := f.title, description := some f.description,
    event_date := f.event_date, location := some f.location,
    status := f.status, image_url := some f.image_url,
    ticket_price := f.ticket_price, tickets_url := some f.tickets_url,
    festival := some f.festival }

/-- Combined state of the `EventManager` component and the remote `events`
table it talks to. -/
structure ManagerModel where
  store : List Event
  events : List Event
  loading : Bool
  editingEvent : Option Event
  formData : EventForm
  toasts : List Toast
deriving Repr

/-- The component's mount state: `events = []`, `loading = true`, no event
being edited, blank form. -/
def initialManager (store : List Event) : ManagerModel :=
  { store := store, events := [], loading := true, editingEvent := none,
    formData := initialEventForm, toasts := [] }

/-- `fetchEvents`: on success sets `events` to the ordered table rows; on
failure toasts `'Kunne ikke hente arrangementer'` and leaves `events` as it
was; either way `finally` clears `loading`. -/
def managerFetchEvents (ok : Bool) (m : ManagerModel) : ManagerModel × List Req :=
  if ok then
    ({ m with events := orderByEventDateAsc m.store, loading := false },
     [.selectEvents])
  else
    ({ m with toasts := m.toasts ++ [.error "Kunne ikke hente arrangementer"],
              loading := false },
     [.selectEvents])

/-- `handleSubmit` of `EventManager`: updates the edited row (or inserts a
new one with backend-generated id `newId`); on success toasts, clears the
editing state, resets the form and refetches; on failure toasts
`'Kunne ikke lagre arrangement'` and changes nothing else. -/
def managerHandleSubmit (ok fetchOk : Bool) (newId : String) (m : ManagerModel) :
    ManagerModel × List Req :=
  match m.editingEvent with
  | some ev =>
    if ok then
      let m1 := { m with
        store := m.store.map (fun e => if e.id == ev.id then applyEventForm m.formData e else e),
        toasts := m.toasts ++ [.success "Arrangement oppdatert"],
        editingEvent := none, formData := initialEventForm }
      let next := managerFetchEvents fetchOk m1
      (next.1, .updateEvent ev.id m.formData.title :: next.2)
    else
      ({ m with toasts := m.toasts ++ [.error "Kunne ikke lagre arrangement"] },
       [.updateEvent ev.id m.formData.title])
  | none =>
    if ok then
      let m1 := { m with
        store := m.store ++ [eventFromForm newId m.formData],
        toasts := m.toasts ++ [.success "Arrangement opprettet"],
        editingEvent := none, formData := initialEventForm }
      let next := managerFetchEvents fetchOk m1
      (next.1, .insertEvent m.formData.title :: next.2)
    else
      ({ m with toasts := m.toasts ++ [.error "Kunne ikke lagre arrangement"] },
       [.insertEvent m.formData.title])

/-- `handleDelete`: first `confirm(...)`; declining returns at once with no
request. Otherwise `delete().eq('id', id)`; on success toasts and refetches,
on failure toasts `'Kunne ikke slette arrangement'`. -/
def managerHandleDelete (confirmed ok fetchOk : Bool) (m : ManagerModel)
    (id : String) : ManagerModel × List Req :=
  if !confirmed then (m, [])
  else if ok then
    let m1 := { m with store := m.store.filter (fun e => !(e.id == id)),
                       toasts := m.toasts ++ [.success "Arrangement slettet"] }
    let next := managerFetchEvents fetchOk m1
    (next.1, .deleteEvent id :: next.2)
  else
    ({ m with toasts := m.toasts ++ [.error "Kunne ikke slette arrangement"] },
     [.deleteEvent id])

/-- `handleStatusChange`: `update({ status }).eq('id', id)`; on success maps
the new status over the local list (no refetch) and toasts; on failure toasts
`'Kunne ikke oppdatere status'` and leaves local state alone. -/
def managerHandleStatusChange (ok : Bool) (m : ManagerModel) (id : String)
    (st : EventStatus) : ManagerModel × List Req :=
  if ok then
    ({ m with
        store := m.store.map (fun e => if e.id == id then { e with status := st } else e),
        events := m.events.map (fun e => if e.id == id then { e with status := st } else e),
        toasts := m.toasts ++ [.success "Status oppdatert"] },
     [.updateEventStatus id st])
  else
    ({ m with toasts := m.toasts ++ [.error "Kunne ikke oppdatere status"] },
     [.updateEventStatus id st])

/-! ### ContactMessages (admin message manager) -/

/-- The `update({ status })` payload applied to the `contact_messages`
table: only the `status` column of matching rows is written. -/
def applyMessageStatusUpdate (tbl : List ContactMessage) (id : String)
    (st : MessageStatus) : List ContactMessage :=
  tbl.map (fun x => if x.id == id then { x with status := st } else x)

/-- The `update({ admin_notes })` payload applied to the `contact_messages`
table: only the `admin_notes` column of matching rows is written. -/
def applyMessageNotesUpdate (tbl : List ContactMessage) (id : String)
    (notes : String) : List ContactMessage :=
  tbl.map (fun x => if x.id == id then { x with admin_notes := some notes } else x)

/-- The notes dictionary built after a fetch:
`notesState[message.id] = message.admin_notes || ''`, with `''` for ids not
present (matching `editingNotes[message.id] || ''` at the use site). -/
def notesInit (msgs : List ContactMessage) : String → String := fun k =>
  match msgs.find? (fun x => x.id == k) with
  | some x => x.admin_notes.getD ""
  | none => ""

/-- Combined state of the `ContactMessages` component and the remote
`contact_messages` table it talks to. -/
structure ContactModel where
  cstore : List ContactMessage
  messages : List ContactMessage
  cloading : Bool
  editingNotes : String → String
  ctoasts : List Toast

/-- The component's mount state: no messages, `loading = true`, empty notes
buffers. -/
def initialContact (cstore : List ContactMessage) : ContactModel :=
  { cstore := cstore, messages := [], cloading := true,
    editingNotes := fun _ => "", ctoasts := [] }

/-- `fetchMessages`: on success sets `messages` to the rows ordered
newest-first and reinitialises every notes buffer from the stored
`admin_notes`; on failure toasts `'Could not fetch messages'`; either way
`finally` clears `loading`. -/
def contactFetchMessages (ok : Bool) (cm : ContactModel) : ContactModel × List Req :=
  if ok then
    let sorted := orderByCreatedAtDesc cm.cstore
    ({ cm with messages := sorted, editingNotes := notesInit sorted,
               cloading := false },
     [.selectMessages])
  else
    ({ cm with ctoasts := cm.ctoasts ++ [.error "Could not fetch messages"],
               cloading := false },
     [.selectMessages])

/-- `updateStatus`: `update({ status }).eq('id', id)`; on success toasts
`'Status updated'` and refetches; on failure toasts
`'Could not update status'`. -/
def contactUpdateStatus (ok fetchOk : Bool) (cm : ContactModel) (id : String)
    (st : MessageStatus) : ContactModel × List Req :=
  if ok then
    let cm1 := { cm with cstore := applyMessageStatusUpdate cm.cstore id st,
                         ctoasts := cm.ctoasts ++ [.success "Status updated"] }
    let next := contactFetchMessages fetchOk cm1
    (next.1, .updateMessageStatus id st :: next.2)
  else
    ({ cm with ctoasts := cm.ctoasts ++ [.error "Could not update status"] },
     [.updateMessageStatus id st])

/-- `updateAdminNotes`: `update({ admin_notes: editingNotes[id] }).eq('id', id)`;
on success toasts `'Notes updated'` and refetches; on failure toasts
`'Could not update notes'`. -/
def contactUpdateNotes (ok fetchOk : Bool) (cm : ContactModel) (id : String) :
    ContactModel × List Req :=
  let payload := cm.editingNotes id
  if ok then
    let cm1 := { cm with cstore := applyMessageNotesUpdate cm.cstore id payload,
                         ctoasts := cm.ctoasts ++ [.success "Notes updated"] }
    let next := contactFetchMessages fetchOk cm1
    (next.1, .updateMessageNotes id payload :: next.2)
  else
    ({ cm with ctoasts := cm.ctoasts ++ [.error "Could not update notes"] },
     [.updateMessageNotes id payload])

/-- `deleteMessage`: first `window.confirm(...)`; declining returns at once
with no request. Otherwise `delete().eq('id', id)`; on success toasts
`'Melding slettet'` and refetches, on failure toasts
`'Kunne ikke slette melding'`. -/
def contactDeleteMessage (confirmed ok fetchOk : Bool) (cm : ContactModel)
    (id : String) : ContactModel × List Req :=
  if !confirmed then (cm, [])
  else if ok then
    let cm1 := { cm with cstore := cm.cstore.filter (fun x => !(x.id == id)),
                         ctoasts := cm.ctoasts ++ [.success "Melding slettet"] }
    let next := contactFetchMessages fetchOk cm1
    (next.1, .deleteMessage id :: next.2)
  else
    ({ cm with ctoasts := cm.ctoasts ++ [.error "Kunne ikke slette melding"] },
     [.deleteMessage id])

/-! ### MembershipForm -/

/-- The membership form's local `formData` fields. -/
structure MembershipFields where
  name : String
  email : String
  phone : String
  location : String
  ageGroup : String
  motivation : String
deriving DecidableEq, Repr

/-- The initial/reset membership form value (all fields `''`). -/
def emptyMembershipFields : MembershipFields :=
  { name := "", email := "", phone := "", location := "", ageGroup := "",
    motivation := "" }

/-- Local component state of `MembershipForm`. -/
structure MembershipState where
  formData : MembershipFields
  submitted : Bool
  submitting : Bool
deriving DecidableEq, Repr

/-- The fixed external checkout URL the submit handler navigates to. -/
def checkoutUrl : String :=
  "https://event.checkin.no/139486/medlemskap-2025?fbclid=IwY2xjawLXSCRleHRuA2FlbQIxMABicmlkETFEbUFTOWNCZm9xSG9BOTlFAR5ngijSdRJ2Kfi2XKvhspY8HmCkfC0VMFcmgS2L1bf0TxfXalIxIw6o4tGhkw_aem_RvErzvAQ4nDpV1uu_VUUAA"

/-- Externally visible effects of the membership submit handler, in order. -/
inductive SubmitEffect where
  | storeAction (fields : MembershipFields)
  | navigate (url : String)
deriving DecidableEq, Repr

/-- `handleSubmit` of `MembershipForm`: sets `submitting`, awaits the store
action (whose Boolean result `actionOk` the source discards), resets the form
fields, sets the `submitted` banner flag, then assigns `window.location.href`
to the fixed checkout URL. `submitting` is never cleared. -/
def membershipHandleSubmit (st : MembershipState) (actionOk : Bool) :
    MembershipState × List SubmitEffect :=
  let st1 := { st with submitting := true }
  let st2 := { st1 with formData := emptyMembershipFields }
  let st3 := { st2 with submitted := true }
  (st3, [SubmitEffect.storeAction st.formData, SubmitEffect.navigate checkoutUrl])

/-- Split a character list at every occurrence of `sep` (the separators are
dropped); the structural-recursion analogue of `String.splitOn` for one-
character separators, so that concrete inputs evaluate in the kernel. -/
def splitOnChar (sep : Char) : List Char → List (List Char)
  | [] => [[]]
  | c :: cs =>
    let rest := splitOnChar sep cs
    if c = sep then [] :: rest
    else
      match rest with
      | [] => [[c]]
      | r :: rs => (c :: r) :: rs

/-- The printable specials the WHATWG email grammar admits in the local part
besides alphanumerics; the apostrophe (39), backtick (96), both braces
(123, 125), the vertical bar (124) and the tilde (126) are matched by code
point. -/
def isEmailAtext (c : Char) : Bool :=
  c.isAlphanum || ".!#$%&*+/=?^_-".toList.contains c ||
  c.toNat == 39 || c.toNat == 96 || c.toNat == 123 || c.toNat == 124 ||
  c.toNat == 125 || c.toNat == 126

/-- A character admissible inside a domain label: alphanumeric or hyphen. -/
def isDomainChar (c : Char) : Bool :=
  c.isAlphanum || c = '-'

/-- A domain label of the WHATWG email grammar: 1–63 characters, alphanumeric
or hyphen throughout, with an alphanumeric first and last character. -/
def isValidDomainLabel (l : List Char) : Bool :=
  !l.isEmpty && decide (l.length ≤ 63) && l.all isDomainChar &&
  (match l.head? with | some c => c.isAlphanum | none => false) &&
  (match l.getLast? with | some c => c.isAlphanum | none => false)

/-- The WHATWG HTML definition of a valid email address, the check a browser
applies to an `<input type="email">` value: a non-empty run of atext
characters, one `@`, and a dot-separated sequence of valid domain labels. -/
def isValidEmail (s : String) : Bool :=
  match splitOnChar '@' s.toList with
  | [lp, dom] =>
    !lp.isEmpty && lp.all isEmailAtext &&
    (splitOnChar '.' dom).all isValidDomainLabel
  | _ => false

/-- The browser's constraint validation for this form: the four inputs
carrying the `required` attribute in the markup (name, email, location,
ageGroup — the select's placeholder option has value `''`) must be non-empty,
and the email input, declared `type="email"`, must additionally hold a
well-formed email address; phone and motivation carry no `required`
attribute and no validated type. -/
def browserAllowsSubmit (f : MembershipFields) : Bool :=
  (f.name != "") && ((f.email != "") && isValidEmail f.email) &&
  (f.location != "") && (f.ageGroup != "")

/-- Form submission as the browser dispatches it: the submit handler runs
only when constraint validation passes; otherwise nothing runs. -/
def membershipSubmitGate (st : MembershipState) (actionOk : Bool) :
    Option (MembershipState × List SubmitEffect) :=
  if browserAllowsSubmit st.formData then some (membershipHandleSubmit st actionOk)
  else none

end Hovden

namespace Hovden

/-- C1: with a well-defined ratio `r = w / h` (positive height), the classifier
picks the wide bucket iff `r > 1.7`, the tall bucket iff `r < 0.8`, and the
standard bucket iff `0.8 ≤ r ≤ 1.7` (both boundary values inclusive). -/
theorem aspect_bucket_spec (w h : ℕ) (hpos : 0 < h) :
    (handleImageLoad w h = .wide ↔ (17 : ℚ)/10 < (w : ℚ)/(h : ℚ)) ∧
    (handleImageLoad w h = .tall ↔ (w : ℚ)/(h : ℚ) < (8 : ℚ)/10) ∧
    (handleImageLoad w h = .standard ↔
      (8 : ℚ)/10 ≤ (w : ℚ)/(h : ℚ) ∧ (w : ℚ)/(h : ℚ) ≤ (17 : ℚ)/10) := by
  have hne : h ≠ 0 := Nat.pos_iff_ne_zero.mp hpos
  set r : ℚ := (w : ℚ)/(h : ℚ) with hr
  have hdiv : jsDiv w h = .finite r := by
    simp [jsDiv, hne, hr]
  unfold handleImageLoad
  rw [hdiv]
  by_cases h1 : (17 : ℚ)/10 < r
  · have hnlt : ¬ r < (8 : ℚ)/10 := not_lt.mpr (le_trans (by norm_num) h1.le)
    have hnle : ¬ r ≤ (17 : ℚ)/10 := not_le.mpr h1
    simp [jsGt, jsLt, h1, hnlt, hnle]
  · by_cases h2 : r < (8 : ℚ)/10
    · have hn8 : ¬ (8 : ℚ)/10 ≤ r := not_le.mpr h2
      simp [jsGt, jsLt, h1, h2, hn8]
    · simp [jsGt, jsLt, h1, h2]
      exact ⟨not_lt.mp h2, not_lt.mp h1⟩

/-- Witness for C1 at the concrete loaded image 16×9. -/
theorem aspect_bucket_spec_witness :
    0 < 9 ∧
    ((handleImageLoad 16 9 = .wide ↔ (17 : ℚ)/10 < (16 : ℚ)/(9 : ℚ)) ∧
     (handleImageLoad 16 9 = .tall ↔ (16 : ℚ)/(9 : ℚ) < (8 : ℚ)/10) ∧
     (handleImageLoad 16 9 = .standard ↔
       (8 : ℚ)/10 ≤ (16 : ℚ)/(9 : ℚ) ∧ (16 : ℚ)/(9 : ℚ) ≤ (17 : ℚ)/10)) :=
  ⟨by decide, aspect_bucket_spec 16 9 (by decide)⟩

/-- C2 counterexample: a malformed image with positive width and zero height
has ratio +Infinity, so `ratio > 1.7` holds and the classifier picks the wide
bucket, not the default standard bucket. -/
theorem aspect_malformed_cex :
    handleImageLoad 1 0 = AspectClass.wide ∧
    AspectClass.wide ≠ AspectClass.standard := by
  constructor
  · rfl
  · intro hcon
    exact AspectClass.noConfusion hcon

/-- C2 amended: the classifier is total (no error path), but malformed
dimensions do not all land in the default bucket: with both dimensions zero
the ratio is NaN, both comparisons are false and the standard bucket is
selected; with positive width and zero height the ratio is +Infinity and the
wide bucket is selected; with zero width and positive height the ratio is 0,
which is `< 0.8`, so the tall bucket is selected. -/
theorem aspect_malformed_default (w h : ℕ) :
    handleImageLoad w 0 = (if w = 0 then AspectClass.standard else AspectClass.wide) ∧
    handleImageLoad 0 (h + 1) = AspectClass.tall := by
  constructor
  · by_cases hw : w = 0
    · simp [handleImageLoad, jsDiv, jsGt, jsLt, hw]
    · simp [handleImageLoad, jsDiv, jsGt, jsLt, hw]
  · have hne : h + 1 ≠ 0 := Nat.succ_ne_zero h
    simp [handleImageLoad, jsDiv, jsGt, jsLt, hne]
    norm_num

/-- C3: the membership submit handler delegates to the store action with the
current fields, resets the local form fields to empty, sets the success
banner, and navigates to the fixed external checkout URL — the same final
state and effect sequence for every value of the store action's result, which
the handler never checks. -/
theorem membership_submit_unconditional (st : MembershipState) (actionOk : Bool) :
    membershipHandleSubmit st actionOk =
      ({ formData := emptyMembershipFields, submitted := true, submitting := true },
       [SubmitEffect.storeAction st.formData, SubmitEffect.navigate checkoutUrl]) :=
  rfl

/-- C4 counterexample: a form whose four `required` fields are all non-empty
but whose email value is not a well-formed address is still blocked by the
browser (the `type="email"` constraint), so "accepts whenever all four
required fields are non-empty" fails; no handler runs and no store action
happens. -/
theorem membership_acceptance_cex :
    browserAllowsSubmit
      { name := "Kari", email := "ikke.epost", phone := "",
        location := "Hovden", ageGroup := "18-25", motivation := "" } = false ∧
    membershipSubmitGate
      { formData :=
          { name := "Kari", email := "ikke.epost", phone := "",
            location := "Hovden", ageGroup := "18-25", motivation := "" },
        submitted := false, submitting := false } true = none ∧
    ("Kari" : String) ≠ "" ∧ ("ikke.epost" : String) ≠ "" ∧
    ("Hovden" : String) ≠ "" ∧ ("18-25" : String) ≠ "" := by
  decide

/-- C4 amended: the browser dispatches the submit handler iff the four
`required` fields (name, email, location, ageGroup) are all non-empty and
the email value additionally passes the `type="email"` format check; when
the gate fails it yields `none`, so no store action runs; and the gate's
verdict does not depend on the optional phone and motivation fields. -/
theorem membership_form_gate_amended (f : MembershipFields)
    (st : MembershipState) (actionOk : Bool) (p mo : String) :
    (browserAllowsSubmit f = true ↔
      (f.name ≠ "" ∧ f.email ≠ "" ∧ isValidEmail f.email = true ∧
       f.location ≠ "" ∧ f.ageGroup ≠ "")) ∧
    (membershipSubmitGate st actionOk = none ↔
      browserAllowsSubmit st.formData = false) ∧
    browserAllowsSubmit { f with phone := p, motivation := mo } =
      browserAllowsSubmit f := by
  refine ⟨?_, ?_, rfl⟩
  · simp [browserAllowsSubmit, and_assoc]
  · cases hb : browserAllowsSubmit st.formData <;>
      simp [membershipSubmitGate, hb]

/-- C5: the public grid renders exactly the fetched records whose title is
not the string `"Grendedag"`: a record titled `"Grendedag"` is excluded
whatever its other fields, and every other record is kept. -/
theorem grendedag_filter_spec (events : List Event) (e : Event) :
    e ∈ displayedEvents events ↔ e ∈ events ∧ e.title ≠ "Grendedag" := by
  simp [displayedEvents, List.mem_filter]

/-- C6: both rendered event lists are sorted by `event_date` ascending —
every pair of adjacent entries of the public Musikkfest grid (after the
title filter) and of the admin list (after a successful fetch) is ordered. -/
theorem event_lists_sorted (table : List Event) (m : ManagerModel) :
    List.Chain' (fun a b => a.event_date ≤ b.event_date)
      (displayedEvents (fetchMusikkfestEvents table)) ∧
    List.Chain' (fun a b => a.event_date ≤ b.event_date)
      ((managerFetchEvents true m).1.events) := by
  constructor
  · exact ((List.sorted_insertionSort eventDateLE
      ((table.filter (fun e => e.festival == some "musikkfest")))).filter _).chain'
  · exact (List.sorted_insertionSort eventDateLE m.store).chain'

/-- C7: declining the confirmation dialog makes `handleDelete` (events) and
`deleteMessage` (contact messages) return at once: no request is issued and
the store and all local state are returned unchanged. -/
theorem delete_requires_confirmation (m : ManagerModel) (cm : ContactModel)
    (ok fetchOk : Bool) (id mid : String) :
    managerHandleDelete false ok fetchOk m id = (m, []) ∧
    contactDeleteMessage false ok fetchOk cm mid = (cm, []) :=
  ⟨rfl, rfl⟩

/-- C8: the status write and the notes write of the contact-message manager
are independent: applying the `update({ status })` payload leaves
`admin_notes` and every other non-status column of every row unchanged,
applying the `update({ admin_notes })` payload leaves `status` and every
other column unchanged, and `updateStatus` / `updateAdminNotes` indeed send
exactly those single-column payloads to the store. -/
theorem message_updates_independent (tbl : List ContactMessage)
    (cm : ContactModel) (fetchOk : Bool) (id : String) (st : MessageStatus)
    (notes : String) :
    ((applyMessageStatusUpdate tbl id st).map
        (fun x => (x.id, x.name, x.email, x.message, x.created_at, x.admin_notes)) =
      tbl.map
        (fun x => (x.id, x.name, x.email, x.message, x.created_at, x.admin_notes))) ∧
    ((applyMessageNotesUpdate tbl id notes).map
        (fun x => (x.id, x.name, x.email, x.message, x.created_at, x.status)) =
      tbl.map
        (fun x => (x.id, x.name, x.email, x.message, x.created_at, x.status))) ∧
    (contactUpdateStatus true fetchOk cm id st).1.cstore =
      applyMessageStatusUpdate cm.cstore id st ∧
    (contactUpdateNotes true fetchOk cm id).1.cstore =
      applyMessageNotesUpdate cm.cstore id (cm.editingNotes id) := by
  refine ⟨?_, ?_, ?_, ?_⟩
  · simp only [applyMessageStatusUpdate, List.map_map]
    apply List.map_congr_left
    intro x _
    by_cases hx : x.id = id <;> simp [hx]
  · simp only [applyMessageNotesUpdate, List.map_map]
    apply List.map_congr_left
    intro x _
    by_cases hx : x.id = id <;> simp [hx]
  · cases fetchOk <;> rfl
  · cases fetchOk <;> rfl

/-- C9: every failed backend request is absorbed locally: each failed admin
mutation (status change, save, delete of events or messages) appends exactly
one error toast, issues exactly the one failed request (no retry), and leaves
every other piece of state — stored tables and local lists alike — exactly as
it was; a failed initial fetch leaves the corresponding local list empty. -/
theorem failure_handling_spec (m : ManagerModel) (cm : ContactModel)
    (store : List Event) (cstore : List ContactMessage) (id mid nid : String)
    (st : EventStatus) (mst : MessageStatus) (fetchOk : Bool) :
    managerHandleStatusChange false m id st =
      ({ m with toasts := m.toasts ++ [.error "Kunne ikke oppdatere status"] },
       [.updateEventStatus id st]) ∧
    managerHandleSubmit false fetchOk nid m =
      ({ m with toasts := m.toasts ++ [.error "Kunne ikke lagre arrangement"] },
       [match m.editingEvent with
        | some ev => Req.updateEvent ev.id m.formData.title
        | none => Req.insertEvent m.formData.title]) ∧
    managerHandleDelete true false fetchOk m id =
      ({ m with toasts := m.toasts ++ [.error "Kunne ikke slette arrangement"] },
       [.deleteEvent id]) ∧
    (managerFetchEvents false (initialManager store)).1.events = [] ∧
    contactUpdateStatus false fetchOk cm mid mst =
      ({ cm with ctoasts := cm.ctoasts ++ [.error "Could not update status"] },
       [.updateMessageStatus mid mst]) ∧
    contactUpdateNotes false fetchOk cm mid =
      ({ cm with ctoasts := cm.ctoasts ++ [.error "Could not update notes"] },
       [.updateMessageNotes mid (cm.editingNotes mid)]) ∧
    contactDeleteMessage true false fetchOk cm mid =
      ({ cm with ctoasts := cm.ctoasts ++ [.error "Kunne ikke slette melding"] },
       [.deleteMessage mid]) ∧
    (contactFetchMessages false (initialContact cstore)).1.messages = [] := by
  refine ⟨rfl, ?_, rfl, rfl, rfl, rfl, rfl, rfl⟩
  rcases hE : m.editingEvent with _ | ev <;> simp [managerHandleSubmit, hE]

/-- C10: a successful status update, and a successful notes save, both end by
refetching, which reinitialises the local notes buffer of every message from
the stored `admin_notes`; consequently the whole outcome of a status update
is independent of whatever unsaved notes edits were held locally before —
those edits are discarded. -/
theorem refetch_discards_note_edits (cm : ContactModel) (id k : String)
    (st : MessageStatus) (b : String → String) :
    ((contactUpdateStatus true true cm id st).1.editingNotes k =
      notesInit (contactUpdateStatus true true cm id st).1.messages k) ∧
    ((contactUpdateNotes true true cm id).1.editingNotes k =
      notesInit (contactUpdateNotes true true cm id).1.messages k) ∧
    contactUpdateStatus true true { cm with editingNotes := b } id st =
      contactUpdateStatus true true cm id st :=
  ⟨rfl, rfl, rfl⟩

end Hovden
